import Mathlib

/-!
Verification development for the Amina-Works subtitle studio.

The repository's core logic is shallowly embedded here:
  * text chunking and the batch text-to-speech pipeline
    (`services/geminiService.ts`: `splitTextIntoChunks`, `createWavHeader`,
    `concatenateAudioBuffers`, `generateDubbedAudio`);
  * the translation merge (`translateSubtitlesWithGemini`);
  * the subtitle shift (`handleSync` in the App component) and the
    undo/redo history (`addToHistory`, `undo`, `redo`, `handleReset`,
    the Drive-picker `onSelectFile` handler);
  * the dub drift correction (`handleTimeUpdate` in `VideoPlayer`);
  * the mock backend login (`services/mockBackend.ts`).

Modelling conventions: JS strings are lists of UTF-16 code units (`List Nat`)
where character-level behaviour matters (chunking), and Lean `String`s where
only equality matters (ids, subtitle text, credentials).  JS numbers used as
media times are modelled as `ℚ`; `Math.round(i / n * 100)` is modelled as
exact rational rounding (half up).  `DataView.setUint32` truncates modulo
`2 ^ 32`, which the embedding keeps explicit.  A thrown error is an
`Except.error` / `Option.none`; external calls (speech synthesis results,
translation responses) are inputs to the embedded functions.
-/

namespace AminaWorks

/-! ### Characters and raw text (UTF-16 code units as `Nat`) -/

/-- Sentence-terminal character class of the regex `[.!?]`:
`.` = 46, `!` = 33, `?` = 63. -/
def isTermCh (c : Nat) : Bool := c == 46 || c == 33 || c == 63

/-- ASCII whitespace as removed by JS `String.prototype.trim`
(space, tab, LF, VT, FF, CR). -/
def isWsCh (c : Nat) : Bool :=
  c == 32 || c == 9 || c == 10 || c == 11 || c == 12 || c == 13

/-- The non-whitespace code units of a text, in order. -/
def nonWsChars (l : List Nat) : List Nat := l.filter (fun c => ! isWsCh c)

/-- JS `trim`: drop leading and trailing whitespace. -/
def trimChars (l : List Nat) : List Nat :=
  ((l.dropWhile isWsCh).reverse.dropWhile isWsCh).reverse

/-- Scanner for the sentence regex `[^.!?]+[.!?]+|[^.!?]+$` applied with the
`g` flag: accumulate a maximal run of non-terminators followed by a maximal
run of terminators into one unit.  `cur` is the unit built so far (reversed),
`inTerm` records whether the terminator run has started. -/
def sentGo : List Nat → List Nat → Bool → List (List Nat)
  | [], cur, _ => if cur.isEmpty then [] else [cur.reverse]
  | c :: rest, cur, false =>
      if isTermCh c then sentGo rest (c :: cur) true
      else sentGo rest (c :: cur) false
  | c :: rest, cur, true =>
      if isTermCh c then sentGo rest (c :: cur) true
      else cur.reverse :: sentGo rest [c] false

/-- All matches of `[^.!?]+[.!?]+|[^.!?]+$` in order.  Leading terminator
characters belong to no match and are skipped, exactly as `String.match`
skips positions where neither alternative matches. -/
def sentMatches (t : List Nat) : List (List Nat) :=
  sentGo (t.dropWhile isTermCh) [] false

/-- `text.match(...) || [text]`: when the regex finds no match (the text is
empty or consists solely of terminators) the whole text is the only unit. -/
def sentences (t : List Nat) : List (List Nat) :=
  if (sentMatches t).isEmpty then [t] else sentMatches t

/-- The greedy packing loop of `splitTextIntoChunks`.  The size test is
`(currentChunk + sentence).length > maxChunkSize`, but the accumulation
appends `' ' + sentence`; on overflow the trimmed accumulator is pushed when
non-empty and the current sentence starts the next chunk. -/
def packLoop (maxSize : Nat) : List (List Nat) → List Nat → List (List Nat)
  | [], cur => if (trimChars cur).isEmpty then [] else [trimChars cur]
  | s :: rest, cur =>
      if maxSize < cur.length + s.length then
        if (trimChars cur).isEmpty then packLoop maxSize rest s
        else trimChars cur :: packLoop maxSize rest s
      else packLoop maxSize rest (cur ++ 32 :: s)

/-- `splitTextIntoChunks(text)` with the default `maxChunkSize = 300`. -/
def splitTextIntoChunks (t : List Nat) : List (List Nat) :=
  packLoop 300 (sentences t) []

/-! ### WAV container header (`createWavHeader`) -/

/-- Two little-endian bytes of `DataView.setUint16`. -/
def u16le (v : Nat) : List Nat := [v % 256, v / 256 % 256]

/-- Four little-endian bytes of `DataView.setUint32` (truncates mod `2^32`). -/
def u32le (v : Nat) : List Nat :=
  [v % 256, v / 256 % 256, v / 65536 % 256, v / 16777216 % 256]

/-- The 44-byte RIFF/WAVE header produced by `createWavHeader(dataLength,
sampleRate)`: PCM, mono, 16-bit, byte rate `sampleRate * 2`, block align 2,
with the `data` sub-chunk length field at offset 40. -/
def createWavHeader (dataLength sampleRate : Nat) : List Nat :=
  [82, 73, 70, 70] ++ u32le (36 + dataLength) ++
  [87, 65, 86, 69] ++ [102, 109, 116, 32] ++ u32le 16 ++
  u16le 1 ++ u16le 1 ++ u32le sampleRate ++ u32le (sampleRate * 2) ++
  u16le 2 ++ u16le 16 ++ [100, 97, 116, 97] ++ u32le dataLength

/-- Little-endian decoding of a 4-byte slice. -/
def readU32 : List Nat → Nat
  | [a, b, c, d] => a + 256 * b + 65536 * c + 16777216 * d
  | _ => 0

/-- The value stored in a header's data-length field (bytes 40–43). -/
def dataLengthField (header : List Nat) : Nat :=
  readU32 ((header.drop 40).take 4)

/-! ### Batch speech pipeline (`generateDubbedAudio`) -/

/-- The terminal error thrown when `audioBuffers.length === 0`
("No audio generated from batches."). -/
inductive DubError
  | NoAudioGenerated
deriving DecidableEq, Repr

/-- `Math.round(num / den * 100)` … with the percentage already folded into
`num`, i.e. `Math.round(num / den)` on exact rationals: half rounds up. -/
def jsRound (num den : Nat) : Nat := (2 * num + den) / (2 * den)

/-- One pass of the synthesis loop: for the chunk at (global) index `i` of
`n`, first `onProgress(Math.round(i / n * 100))` fires, then the chunk is
synthesised; a chunk whose response carries no audio data contributes no
buffer.  Returns the progress values emitted and the collected buffers. -/
def runChunks (synth : List Nat → Option (List Nat)) :
    List (List Nat) → Nat → Nat → List Nat × List (List Nat)
  | [], _, _ => ([], [])
  | c :: rest, n, i =>
      let tail := runChunks synth rest n (i + 1)
      (jsRound (i * 100) n :: tail.1,
       match synth c with
       | some b => b :: tail.2
       | none => tail.2)

/-- `generateDubbedAudio(text)` against a synthesis oracle `synth`, returning
the full list of progress-callback values and the outcome.  After the loop
`onProgress(100)` fires unconditionally; only then is the empty-buffer check
made, throwing `NoAudioGenerated`; otherwise the raw buffers are concatenated
in order and prefixed with the 24 kHz WAV header. -/
def generateDubbedAudioFull (text : List Nat)
    (synth : List Nat → Option (List Nat)) :
    List Nat × Except DubError (List Nat) :=
  let chunks := splitTextIntoChunks text
  let res := runChunks synth chunks chunks.length 0
  let trace := res.1 ++ [100]
  let payload := res.2.flatten
  if res.2.isEmpty then (trace, Except.error DubError.NoAudioGenerated)
  else (trace, Except.ok (createWavHeader payload.length 24000 ++ payload))

/-- The resource (or terminal error) produced by the pipeline. -/
def generateDubbedAudio (text : List Nat)
    (synth : List Nat → Option (List Nat)) : Except DubError (List Nat) :=
  (generateDubbedAudioFull text synth).2

/-- The progress values delivered by the pipeline, in order. -/
def dubProgressTrace (text : List Nat)
    (synth : List Nat → Option (List Nat)) : List Nat :=
  (generateDubbedAudioFull text synth).1

/-! ### Subtitle cues, shifting, translation merge -/

/-- One subtitle cue (the `Subtitle` fields the core logic touches). -/
structure Subtitle where
  id : String
  startTime : ℚ
  endTime : ℚ
  text : String
  originalText : Option String
  speaker : String
deriving DecidableEq, Repr

/-- `handleSync(offsetMs)`: every cue's start and end are shifted by
`offsetMs / 1000` seconds and clamped to 0 with `Math.max` independently. -/
def handleSync (offsetMs : ℚ) (subs : List Subtitle) : List Subtitle :=
  subs.map fun sub =>
    { sub with
      startTime := max 0 (sub.startTime + offsetMs / 1000),
      endTime := max 0 (sub.endTime + offsetMs / 1000) }

/-- JS `a || b` on an optional string: `undefined` and the empty string are
falsy, so both fall back to `b`. -/
def jsOrStr (a : Option String) (b : String) : String :=
  match a with
  | some s => if s = "" then b else s
  | none => b

/-- `new Map(pairs).get(key)`: the value of the last pair with this key. -/
def mapGet (pairs : List (String × String)) (key : String) : Option String :=
  (pairs.reverse.find? (fun p => p.1 == key)).map (fun p => p.2)

/-- The merge step of `translateSubtitlesWithGemini`: with the parsed
response `ts` (a list of `(id, translatedText)` pairs), each cue becomes
`{ ...sub, originalText: sub.originalText || sub.text,
   text: translationMap.get(sub.id) || sub.text }`. -/
def applyTranslations (subs : List Subtitle) (ts : List (String × String)) :
    List Subtitle :=
  subs.map fun sub =>
    { sub with
      originalText := some (jsOrStr sub.originalText sub.text),
      text := jsOrStr (mapGet ts sub.id) sub.text }

/-! ### Edit history (undo/redo over full snapshots) -/

/-- A history snapshot is a full copy of the cue list. -/
abbrev Snapshot := List Subtitle

/-- The `history` array together with the `historyIndex` cursor. -/
structure AppHist where
  history : List Snapshot
  index : Int
deriving DecidableEq, Repr

/-- The empty history installed by `handleReset` and `handleFileUpload`:
`setHistory([]); setHistoryIndex(-1)`. -/
def resetHist : AppHist := ⟨[], -1⟩

/-- `addToHistory(newSubtitles)`: `history.slice(0, historyIndex + 1)` (the
forward branch is dropped), push the new snapshot, point the cursor at it. -/
def addToHistory (st : AppHist) (s : Snapshot) : AppHist :=
  let newHistory := st.history.take (st.index + 1).toNat ++ [s]
  ⟨newHistory, (newHistory.length : Int) - 1⟩

/-- `undo()`: if `historyIndex > 0`, move the cursor back one step. -/
def undo (st : AppHist) : AppHist :=
  if 0 < st.index then ⟨st.history, st.index - 1⟩ else st

/-- The snapshot `undo()` installs via `setSubtitles(history[historyIndex - 1])`
(`none` both on the lower-bound no-op and when the slot is out of range). -/
def undoResult (st : AppHist) : Option Snapshot :=
  if 0 < st.index then st.history.get? (st.index - 1).toNat else none

/-- `redo()`: if `historyIndex < history.length - 1`, advance the cursor. -/
def redo (st : AppHist) : AppHist :=
  if st.index < (st.history.length : Int) - 1 then ⟨st.history, st.index + 1⟩
  else st

/-- The Drive-picker `onSelectFile` handler: it runs `setSubtitles([])` and
`setHistory([])` but — unlike `handleReset` and `handleFileUpload` — never
calls `setHistoryIndex(-1)`, so the cursor keeps its previous value. -/
def driveImport (st : AppHist) : AppHist := ⟨[], st.index⟩

/-- The spec's history invariant: the cursor is a valid index into the
snapshot sequence, or -1 exactly when the history is empty. -/
def histInvariant (st : AppHist) : Prop :=
  (st.history = [] ∧ st.index = -1) ∨
  (0 ≤ st.index ∧ st.index < st.history.length)

instance (st : AppHist) : Decidable (histInvariant st) := by
  unfold histInvariant; infer_instance

/-! ### Dub playback drift correction (`VideoPlayer.handleTimeUpdate`) -/

/-- One `timeupdate` tick: with `video` the primary position and `audio` the
secondary (dub) position, the body runs only outside a seek, and snaps the
secondary to the primary when the dub is active, the dub element is not
paused, and `Math.abs(audio.currentTime - video.currentTime) > 0.3`.
Returns the pair (primary, secondary) after the tick. -/
def handleTimeUpdate (seeking useDub audioPaused : Bool) (video audio : ℚ) :
    ℚ × ℚ :=
  if seeking = false ∧ useDub = true ∧ audioPaused = false ∧
      (3 : ℚ) / 10 < |audio - video| then
    (video, video)
  else (video, audio)

/-! ### Mock backend login -/

/-- A stored user record (the fields `login` inspects or returns). -/
structure StoredUser where
  id : String
  email : String
  name : String
  role : String
deriving DecidableEq, Repr

/-- ASCII lower-casing, the fragment of JS `toLowerCase` exercised here. -/
def lowerChar (c : Char) : Char :=
  if 65 ≤ c.toNat ∧ c.toNat ≤ 90 then Char.ofNat (c.toNat + 32) else c

/-- Lower-case every character of a string. -/
def lowerStr (s : String) : String := String.mk (s.data.map lowerChar)

/-- The static admin user returned by the hardcoded override. -/
def adminUser : StoredUser :=
  ⟨"admin_static_root", "admin@amina.work", "Oussanat (Admin)", "admin"⟩

/-- The predicate of `users.find(...)`: case-insensitive email match or
exact (case-sensitive) name match. -/
def loginMatches (identifier : String) (u : StoredUser) : Bool :=
  lowerStr u.email == lowerStr identifier || u.name == identifier

/-- `login(identifier, password)` (identical in `services/mockBackend.ts` and
the second backend variant): the hardcoded pair `oussanat` / `oussanat98`
yields the static admin; otherwise the first stored user whose email
(case-insensitively) or exact name matches the identifier is returned, and
the password is never consulted; `none` models the thrown
"Invalid credentials" error. -/
def login (users : List StoredUser) (identifier password : String) :
    Option StoredUser :=
  if identifier = "oussanat" ∧ password = "oussanat98" then some adminUser
  else users.find? (loginMatches identifier)

/-! ### Concrete inputs used by counterexamples and witnesses -/

/-- A 600-character text of three sentences of lengths 300, 150 and 150:
299 `a`s and a period, then 149 `b`s and a period, then 149 `c`s and a
period. -/
def overflowText : List Nat :=
  List.replicate 299 97 ++ [46] ++
  (List.replicate 149 98 ++ [46] ++ (List.replicate 149 99 ++ [46]))

/-- The text "hi.", which chunks into the single chunk "hi.". -/
def oneChunkText : List Nat := [104, 105, 46]

/-- A synthesis oracle producing two bytes of audio for the chunk "hi."
and no audio for anything else. -/
def demoSynth : List Nat → Option (List Nat) :=
  fun c => if c = [104, 105, 46] then some [7, 8] else none

/-- A concrete cue for history scenarios. -/
def demoCue : Subtitle := ⟨"demo", 0, 1, "Hi", none, "Speaker"⟩

/-- A cue whose pre-translation text is the empty string. -/
def emptyTextCue : Subtitle := ⟨"a", 0, 1, "", none, "S"⟩

/-- A concrete stored backend user. -/
def alice : StoredUser := ⟨"u1", "Alice@Example.com", "Alice", "user"⟩

/-! ## Lemmas -/

/-! ### Chunking lemmas -/

theorem trimChars_length_le (l : List Nat) : (trimChars l).length ≤ l.length := by
  unfold trimChars
  simp only [List.length_reverse]
  exact le_trans (List.dropWhile_sublist isWsCh).length_le
    (by simpa using (List.dropWhile_sublist (l := l) isWsCh).length_le)

theorem nonWsChars_dropWhile (l : List Nat) :
    nonWsChars (l.dropWhile isWsCh) = nonWsChars l := by
  unfold nonWsChars
  induction l with
  | nil => rfl
  | cons c rest ih =>
      cases h : isWsCh c with
      | true => simp [List.dropWhile_cons, h, ih]
      | false => simp [List.dropWhile_cons, h]

theorem nonWsChars_nil : nonWsChars [] = [] := rfl

theorem nonWsChars_reverse (l : List Nat) :
    nonWsChars l.reverse = (nonWsChars l).reverse :=
  List.filter_reverse _ l

theorem nonWsChars_trimChars (l : List Nat) :
    nonWsChars (trimChars l) = nonWsChars l := by
  show nonWsChars (((l.dropWhile isWsCh).reverse.dropWhile isWsCh).reverse) =
    nonWsChars l
  rw [nonWsChars_reverse, nonWsChars_dropWhile, nonWsChars_reverse,
    List.reverse_reverse, nonWsChars_dropWhile]

theorem nonWsChars_eq_nil_of_trim (l : List Nat) (h : trimChars l = []) :
    nonWsChars l = [] := by
  rw [← nonWsChars_trimChars, h]; rfl

theorem nonWsChars_append (a b : List Nat) :
    nonWsChars (a ++ b) = nonWsChars a ++ nonWsChars b :=
  List.filter_append a b

theorem packLoop_content (m : Nat) (sents : List (List Nat)) : ∀ cur : List Nat,
    nonWsChars (packLoop m sents cur).flatten =
      nonWsChars cur ++ nonWsChars sents.flatten := by
  induction sents with
  | nil =>
      intro cur
      simp only [packLoop, List.flatten_nil]
      split
      · rename_i h
        rw [List.isEmpty_iff] at h
        simp [nonWsChars_nil, nonWsChars_eq_nil_of_trim cur h]
      · simp only [List.flatten_cons, List.flatten_nil, List.append_nil,
          nonWsChars_nil]
        rw [nonWsChars_trimChars]
  | cons s rest ih =>
      intro cur
      simp only [packLoop]
      split
      · split
        · rename_i hover htrim
          rw [List.isEmpty_iff] at htrim
          rw [ih s]
          simp [List.flatten_cons, nonWsChars_append,
            nonWsChars_eq_nil_of_trim cur htrim]
        · rename_i hover htrim
          simp only [List.flatten_cons, nonWsChars_append, ih s,
            nonWsChars_trimChars]
      · rw [ih (cur ++ 32 :: s)]
        have h32 : nonWsChars (32 :: s) = nonWsChars s := by
          simp [nonWsChars, isWsCh]
        simp [List.flatten_cons, nonWsChars_append, h32, List.append_assoc]

theorem packLoop_bound (m : Nat) (allS : List (List Nat))
    (sents : List (List Nat)) : ∀ cur : List Nat,
    (∀ s ∈ sents, s ∈ allS) → (cur.length ≤ m + 1 ∨ cur ∈ allS) →
    ∀ c ∈ packLoop m sents cur,
      c.length ≤ m + 1 ∨ ∃ s ∈ allS, c = trimChars s := by
  induction sents with
  | nil =>
      intro cur _ hcur c hc
      simp only [packLoop] at hc
      split at hc
      · simp at hc
      · rw [List.mem_singleton] at hc
        subst hc
        rcases hcur with h | h
        · exact Or.inl (le_trans (trimChars_length_le cur) h)
        · exact Or.inr ⟨cur, h, rfl⟩
  | cons s rest ih =>
      intro cur hmem hcur c hc
      have hrest : ∀ x ∈ rest, x ∈ allS := fun x hx => hmem x (List.mem_cons_of_mem s hx)
      have hs : s ∈ allS := hmem s (List.mem_cons_self s rest)
      simp only [packLoop] at hc
      split at hc
      · split at hc
        · exact ih s hrest (Or.inr hs) c hc
        · rcases List.mem_cons.mp hc with hhd | htl
          · subst hhd
            rcases hcur with h | h
            · exact Or.inl (le_trans (trimChars_length_le cur) h)
            · exact Or.inr ⟨cur, h, rfl⟩
          · exact ih s hrest (Or.inr hs) c htl
      · rename_i hfit
        refine ih (cur ++ 32 :: s) hrest (Or.inl ?_) c hc
        have : ¬ m < cur.length + s.length := hfit
        simp only [List.length_append, List.length_cons]
        omega

/-! ### Batch pipeline lemmas -/

theorem runChunks_eq (synth : List Nat → Option (List Nat))
    (chunks : List (List Nat)) : ∀ n i : Nat,
    runChunks synth chunks n i =
      ((List.range chunks.length).map (fun k => jsRound ((i + k) * 100) n),
       chunks.filterMap synth) := by
  induction chunks with
  | nil => intro n i; rfl
  | cons c rest ih =>
      intro n i
      simp only [runChunks, ih, List.length_cons, List.filterMap_cons]
      refine Prod.ext ?_ ?_
      · simp only [List.range_succ_eq_map, List.map_cons, List.map_map,
          Nat.add_zero]
        refine congrArg₂ _ rfl (List.map_congr_left fun a _ => ?_)
        have : i + 1 + a = i + Nat.succ a := by omega
        simp [Function.comp, this]
      · cases synth c <;> simp

theorem readU32_u32le (v : Nat) (h : v < 2 ^ 32) : readU32 (u32le v) = v := by
  simp only [readU32, u32le]
  omega

theorem dataLengthField_createWavHeader (d sr : Nat) (h : d < 2 ^ 32) :
    dataLengthField (createWavHeader d sr) = d := by
  have hdrop : (createWavHeader d sr).drop 40 = u32le d := by
    simp [createWavHeader, u16le, u32le]
  rw [dataLengthField, hdrop]
  have : (u32le d).take 4 = u32le d := by simp [u32le]
  rw [this, readU32_u32le d h]

theorem jsRound_le_100 (i n : Nat) (h : i < n) : jsRound (i * 100) n ≤ 100 := by
  unfold jsRound
  have hn : 0 < 2 * n := by omega
  have hlt : (2 * (i * 100) + n) / (2 * n) < 101 := by
    rw [Nat.div_lt_iff_lt_mul hn]
    omega
  omega

/-! ## Claim theorems -/

set_option maxRecDepth 8000

/-- Claim C1: the batch speech pipeline skips every chunk whose synthesis
yields no audio, reports the terminal `NoAudioGenerated` error exactly when
no chunk at all produced audio, and otherwise returns a resource that is the
successfully produced raw buffers concatenated in chunk order, prefixed by
one WAV header whose data-length field equals the total payload byte length
(a 32-bit field, hence the representability bound). -/
theorem generateDubbedAudio_skip_error_reassemble (text : List Nat)
    (synth : List Nat → Option (List Nat)) :
    (generateDubbedAudio text synth = Except.error DubError.NoAudioGenerated ↔
      ∀ c ∈ splitTextIntoChunks text, synth c = none)
    ∧ ((splitTextIntoChunks text).filterMap synth ≠ [] →
        generateDubbedAudio text synth =
          Except.ok
            (createWavHeader
                ((splitTextIntoChunks text).filterMap synth).flatten.length 24000 ++
              ((splitTextIntoChunks text).filterMap synth).flatten))
    ∧ (((splitTextIntoChunks text).filterMap synth).flatten.length < 2 ^ 32 →
        dataLengthField
            (createWavHeader
              ((splitTextIntoChunks text).filterMap synth).flatten.length 24000) =
          ((splitTextIntoChunks text).filterMap synth).flatten.length) := by
  have hrun := runChunks_eq synth (splitTextIntoChunks text)
    (splitTextIntoChunks text).length 0
  refine ⟨?_, ?_, fun h => dataLengthField_createWavHeader _ 24000 h⟩
  · simp only [generateDubbedAudio, generateDubbedAudioFull, hrun]
    split
    · rename_i hemp
      rw [List.isEmpty_iff] at hemp
      exact iff_of_true rfl (List.filterMap_eq_nil_iff.mp hemp)
    · rename_i hemp
      rw [List.isEmpty_iff] at hemp
      exact iff_of_false (by simp) fun hall => hemp (List.filterMap_eq_nil_iff.mpr hall)
  · intro hne
    simp only [generateDubbedAudio, generateDubbedAudioFull, hrun]
    rw [if_neg (by simpa [List.isEmpty_iff] using hne)]

/-- Witness for C1 on the one-chunk text "hi." with an oracle producing two
audio bytes for it. -/
theorem generateDubbedAudio_skip_error_reassemble_witness :
    generateDubbedAudio oneChunkText demoSynth =
      Except.ok
        (createWavHeader
            ((splitTextIntoChunks oneChunkText).filterMap demoSynth).flatten.length 24000 ++
          ((splitTextIntoChunks oneChunkText).filterMap demoSynth).flatten)
    ∧ dataLengthField
        (createWavHeader
          ((splitTextIntoChunks oneChunkText).filterMap demoSynth).flatten.length 24000) =
      ((splitTextIntoChunks oneChunkText).filterMap demoSynth).flatten.length :=
  ⟨(generateDubbedAudio_skip_error_reassemble oneChunkText demoSynth).2.1 (by decide),
   (generateDubbedAudio_skip_error_reassemble oneChunkText demoSynth).2.2 (by decide)⟩

/-- Claim C2 (amended): the progress callback fires before each chunk's
synthesis with `Math.round(100 * i / n)` for `i` chunks already processed,
and once more with exactly 100 after the loop has processed every chunk —
regardless of whether the final (or any) chunk produced audio; every
reported value is at most 100 and the last reported value is 100. -/
theorem dubProgressTrace_spec (text : List Nat)
    (synth : List Nat → Option (List Nat)) :
    dubProgressTrace text synth =
      (List.range (splitTextIntoChunks text).length).map
        (fun i => jsRound (i * 100) (splitTextIntoChunks text).length) ++ [100]
    ∧ (dubProgressTrace text synth).getLast? = some 100
    ∧ ∀ v ∈ dubProgressTrace text synth, v ≤ 100 := by
  have hrun := runChunks_eq synth (splitTextIntoChunks text)
    (splitTextIntoChunks text).length 0
  have htr : dubProgressTrace text synth =
      (List.range (splitTextIntoChunks text).length).map
        (fun i => jsRound (i * 100) (splitTextIntoChunks text).length) ++ [100] := by
    simp only [dubProgressTrace, generateDubbedAudioFull, hrun]
    split <;> simp
  refine ⟨htr, ?_, ?_⟩
  · rw [htr]
    exact List.getLast?_concat _
  · intro v hv
    rw [htr] at hv
    rcases List.mem_append.mp hv with h | h
    · obtain ⟨k, hk, rfl⟩ := List.mem_map.mp h
      exact jsRound_le_100 k _ (List.mem_range.mp hk)
    · rw [List.mem_singleton] at h
      omega

/-- Witness for C2 (amended) on the one-chunk text. -/
theorem dubProgressTrace_spec_witness :
    dubProgressTrace oneChunkText demoSynth =
      (List.range (splitTextIntoChunks oneChunkText).length).map
        (fun i => jsRound (i * 100) (splitTextIntoChunks oneChunkText).length) ++ [100] :=
  (dubProgressTrace_spec oneChunkText demoSynth).1

/-- Counterexample to C2 as stated: on a one-chunk text whose only (hence
final) chunk yields no audio, the callback still reports 100, and the run
then terminates with `NoAudioGenerated`. -/
theorem progress_hits_100_on_failed_final_chunk :
    dubProgressTrace oneChunkText (fun _ => none) = [0, 100]
    ∧ generateDubbedAudio oneChunkText (fun _ => none) =
        Except.error DubError.NoAudioGenerated :=
  ⟨by decide, rfl⟩

/-- Claim C3: a commit always lands at the end of the history, so a redo
right after any commit is a no-op (the forward branch is irretrievably
discarded); concretely, after `commit(S0)`, `commit(S1)`, an `undo()`
returning `S0` and a `commit(S2)`, the history is exactly `[S0, S2]` with
the cursor at index 1, and `redo()` leaves that state unchanged. -/
theorem history_commit_discards_forward_branch (st : AppHist)
    (s s0 s1 s2 : Snapshot) :
    redo (addToHistory st s) = addToHistory st s
    ∧ undoResult (addToHistory (addToHistory resetHist s0) s1) = some s0
    ∧ addToHistory (undo (addToHistory (addToHistory resetHist s0) s1)) s2 =
        ⟨[s0, s2], 1⟩
    ∧ redo (addToHistory (undo (addToHistory (addToHistory resetHist s0) s1)) s2) =
        addToHistory (undo (addToHistory (addToHistory resetHist s0) s1)) s2 := by
  refine ⟨?_, rfl, rfl, rfl⟩
  simp [redo, addToHistory]

/-- Claim C4 is a code bug: two commits followed by a Drive-picker import
leave the app with an empty history but the cursor still at 1, violating
the invariant that the cursor is a valid index or -1 exactly when the
history is empty; `handleReset` (modelled by `resetHist`) does restore the
invariant state. -/
theorem drive_import_leaves_stale_cursor :
    driveImport (addToHistory (addToHistory resetHist []) [demoCue]) = ⟨[], 1⟩
    ∧ ¬ histInvariant (driveImport (addToHistory (addToHistory resetHist []) [demoCue]))
    ∧ histInvariant (addToHistory (addToHistory resetHist []) [demoCue])
    ∧ histInvariant resetHist := by
  decide

/-- Claim C5: `handleSync` shifts every cue's start and end by the offset in
seconds, clamping each of the two bounds to 0 independently; cue ids and
texts are untouched, no resulting time is negative, and the concrete
example `shiftAll(-1000 ms)` on `[⟨0,2,"Hi"⟩, ⟨2,5,"There"⟩]` gives
`[⟨0,1,"Hi"⟩, ⟨1,4,"There"⟩]`. -/
theorem handleSync_shifts_and_clamps (offsetMs : ℚ) (subs : List Subtitle) :
    List.Forall₂ (fun s t =>
        t.startTime = max 0 (s.startTime + offsetMs / 1000)
        ∧ t.endTime = max 0 (s.endTime + offsetMs / 1000)
        ∧ t.id = s.id ∧ t.text = s.text)
      subs (handleSync offsetMs subs)
    ∧ (∀ t ∈ handleSync offsetMs subs, 0 ≤ t.startTime ∧ 0 ≤ t.endTime)
    ∧ handleSync (-1000)
        [⟨"1", 0, 2, "Hi", none, "A"⟩, ⟨"2", 2, 5, "There", none, "B"⟩] =
      [⟨"1", 0, 1, "Hi", none, "A"⟩, ⟨"2", 1, 4, "There", none, "B"⟩] := by
  refine ⟨?_, ?_, ?_⟩
  · unfold handleSync
    rw [List.forall₂_map_right_iff, List.forall₂_same]
    exact fun x _ => ⟨rfl, rfl, rfl, rfl⟩
  · intro t ht
    obtain ⟨s, _, rfl⟩ := List.mem_map.mp ht
    exact ⟨le_max_left _ _, le_max_left _ _⟩
  · simp only [handleSync, List.map_cons, List.map_nil]
    norm_num [max_def]

/-- Witness for C5: the concrete nudge of scenario A, extracted by applying
the theorem at the example input. -/
theorem handleSync_shifts_and_clamps_witness :
    handleSync (-1000)
        [⟨"1", 0, 2, "Hi", none, "A"⟩, ⟨"2", 2, 5, "There", none, "B"⟩] =
      [⟨"1", 0, 1, "Hi", none, "A"⟩, ⟨"2", 1, 4, "There", none, "B"⟩] :=
  (handleSync_shifts_and_clamps 0 []).2.2

/-- Claim C6: two successive shifts by `d1` then `d2` equal one shift by
`d1 + d2`, modulo clamping: whenever the first shift clamps no bound, the
two agree exactly. -/
theorem handleSync_compose (subs : List Subtitle) (d1 d2 : ℚ)
    (h : ∀ s ∈ subs, 0 ≤ s.startTime + d1 / 1000 ∧ 0 ≤ s.endTime + d1 / 1000) :
    handleSync d2 (handleSync d1 subs) = handleSync (d1 + d2) subs := by
  unfold handleSync
  rw [List.map_map]
  refine List.map_congr_left fun s hs => ?_
  obtain ⟨h1, h2⟩ := h s hs
  cases s with
  | mk id startTime endTime text originalText speaker =>
      simp only [Function.comp, Subtitle.mk.injEq, true_and, and_true]
      constructor
      · rw [max_eq_right h1]
        congr 1
        ring
      · rw [max_eq_right h2]
        congr 1
        ring

/-- Witness for C6 at a concrete cue list and offsets 500 ms then -200 ms. -/
theorem handleSync_compose_witness :
    (∀ s ∈ [(⟨"1", 0, 2, "Hi", none, "A"⟩ : Subtitle)],
        (0 : ℚ) ≤ s.startTime + 500 / 1000 ∧ (0 : ℚ) ≤ s.endTime + 500 / 1000)
    ∧ handleSync (-200) (handleSync 500 [⟨"1", 0, 2, "Hi", none, "A"⟩]) =
        handleSync (500 + -200) [⟨"1", 0, 2, "Hi", none, "A"⟩] :=
  ⟨by norm_num,
   handleSync_compose [⟨"1", 0, 2, "Hi", none, "A"⟩] 500 (-200) (by norm_num)⟩

/-- Claim C7 (amended): every produced chunk has at most 301 characters —
`maxChunkSize + 1`, because the greedy size check ignores the joining space
it then appends — unless the chunk is the trim of a single oversized
sentence; and the chunks preserve the sentence units' order and content
(equal character sequences after discarding whitespace). -/
theorem splitTextIntoChunks_bound_and_content (t : List Nat) :
    (∀ c ∈ splitTextIntoChunks t,
        c.length ≤ 301 ∨ ∃ s ∈ sentences t, c = trimChars s)
    ∧ nonWsChars (splitTextIntoChunks t).flatten =
        nonWsChars (sentences t).flatten := by
  constructor
  · exact packLoop_bound 300 (sentences t) (sentences t) []
      (fun s hs => hs) (Or.inl (by simp))
  · have h := packLoop_content 300 (sentences t) []
    simpa [nonWsChars_nil] using h

/-- Witness for C7 (amended) at the text "hi.". -/
theorem splitTextIntoChunks_bound_and_content_witness :
    nonWsChars (splitTextIntoChunks oneChunkText).flatten =
      nonWsChars (sentences oneChunkText).flatten :=
  (splitTextIntoChunks_bound_and_content oneChunkText).2

/-- Counterexample to C7 as stated: on a 600-character text of three
sentences of lengths 300, 150 and 150, the produced chunks have lengths 300
and 301 — the 301-character chunk exceeds the 300 maximum although every
single sentence is at most 300 characters long, so it cannot be a single
oversized sentence. -/
theorem splitTextIntoChunks_overflow_counterexample :
    (splitTextIntoChunks overflowText).map List.length = [300, 301]
    ∧ ∀ s ∈ sentences overflowText, s.length ≤ 300 := by
  decide

/-- Claim C8 (amended): the translation merge keeps ids; a cue whose id the
response omits (or maps to the empty string) keeps its text unchanged with
no error; a cue with no `originalText` gets it set to its current text; and
a non-empty `originalText` is never overwritten — but an empty-string
`originalText` counts as unset for the `||` preservation check and is
re-captured from the current text on a later translation. -/
theorem applyTranslations_partial_tolerant (subs : List Subtitle)
    (ts : List (String × String)) :
    List.Forall₂ (fun s t : Subtitle =>
        t.id = s.id
        ∧ (mapGet ts s.id = none → t.text = s.text)
        ∧ (mapGet ts s.id = some "" → t.text = s.text)
        ∧ (∀ o, s.originalText = some o → o ≠ "" → t.originalText = some o)
        ∧ (s.originalText = none → t.originalText = some s.text))
      subs (applyTranslations subs ts) := by
  unfold applyTranslations
  rw [List.forall₂_map_right_iff, List.forall₂_same]
  intro s _
  refine ⟨rfl, ?_, ?_, ?_, ?_⟩
  · intro h
    simp [jsOrStr, h]
  · intro h
    simp [jsOrStr, h]
  · intro o ho hne
    simp [jsOrStr, ho, hne]
  · intro h
    simp [jsOrStr, h]

/-- Witness for C8 (amended): a cue already carrying the non-empty
`originalText` "Orig" keeps it across a translation omitting its id. -/
theorem applyTranslations_partial_tolerant_witness :
    List.Forall₂ (fun s t : Subtitle =>
        t.id = s.id
        ∧ (mapGet [] s.id = none → t.text = s.text)
        ∧ (mapGet [] s.id = some "" → t.text = s.text)
        ∧ (∀ o, s.originalText = some o → o ≠ "" → t.originalText = some o)
        ∧ (s.originalText = none → t.originalText = some s.text))
      [⟨"b", 0, 1, "Hello", some "Orig", "S"⟩]
      (applyTranslations [⟨"b", 0, 1, "Hello", some "Orig", "S"⟩] []) :=
  applyTranslations_partial_tolerant [⟨"b", 0, 1, "Hello", some "Orig", "S"⟩] []

/-- Counterexample to C8 as stated: a cue whose pre-translation text is
empty gets `originalText = some ""` at its first translation, and a second
translation whose response omits the id overwrites that `originalText`
with the translated text — it is not preserved from the first
translation. -/
theorem originalText_overwritten_counterexample :
    (applyTranslations [emptyTextCue] [("a", "Bonjour")]).map
        (fun s => s.originalText) = [some ""]
    ∧ (applyTranslations (applyTranslations [emptyTextCue] [("a", "Bonjour")]) []).map
        (fun s => s.originalText) = [some "Bonjour"] := by
  decide

/-- Claim C9: a `timeupdate` tick never moves the primary position, and
while not seeking, with the dub active and its element playing, a drift of
more than 0.3 s snaps the secondary to the primary; when the drift is
within the threshold the secondary is left alone. -/
theorem handleTimeUpdate_drift_correction (seeking useDub audioPaused : Bool)
    (video audio : ℚ) :
    (handleTimeUpdate seeking useDub audioPaused video audio).1 = video
    ∧ (seeking = false → useDub = true → audioPaused = false →
        (3 : ℚ) / 10 < |audio - video| →
        (handleTimeUpdate seeking useDub audioPaused video audio).2 = video)
    ∧ (¬ (3 : ℚ) / 10 < |audio - video| →
        (handleTimeUpdate seeking useDub audioPaused video audio).2 = audio) := by
  refine ⟨?_, ?_, ?_⟩
  · unfold handleTimeUpdate
    split <;> rfl
  · intro h1 h2 h3 h4
    unfold handleTimeUpdate
    rw [if_pos ⟨h1, h2, h3, h4⟩]
  · intro h
    unfold handleTimeUpdate
    rw [if_neg]
    rintro ⟨-, -, -, h4⟩
    exact h h4

/-- Witness for C9: with the dub playing 1 s ahead of the primary at 1 s,
the tick snaps the secondary back to 1. -/
theorem handleTimeUpdate_drift_correction_witness :
    (handleTimeUpdate false true false 1 2).2 = 1 :=
  (handleTimeUpdate_drift_correction false true false 1 2).2.1 rfl rfl rfl
    (by norm_num)

/-- Claim C10: apart from the hardcoded admin pair `oussanat`/`oussanat98`
(which always yields the static admin user), the password argument has no
influence on a login: two logins with the same identifier and different
passwords return the same result, and a login fails exactly when no stored
user matches the identifier by case-insensitive email or exact name. -/
theorem login_password_independent (users : List StoredUser)
    (identifier p1 p2 : String)
    (h1 : ¬ (identifier = "oussanat" ∧ p1 = "oussanat98"))
    (h2 : ¬ (identifier = "oussanat" ∧ p2 = "oussanat98")) :
    login users identifier p1 = login users identifier p2
    ∧ (login users identifier p1 = none ↔
        users.find? (loginMatches identifier) = none)
    ∧ login users "oussanat" "oussanat98" = some adminUser := by
  unfold login
  rw [if_neg h1, if_neg h2, if_pos ⟨rfl, rfl⟩]
  exact ⟨rfl, Iff.rfl, rfl⟩

/-- Witness for C10: logging in as the stored user `alice` with two
different passwords yields the same stored user, and the admin pair yields
the static admin. -/
theorem login_password_independent_witness :
    login [alice] "alice@example.com" "pw-one" =
      login [alice] "alice@example.com" "pw-two"
    ∧ login [alice] "oussanat" "oussanat98" = some adminUser :=
  ⟨(login_password_independent [alice] "alice@example.com" "pw-one" "pw-two"
      (by decide) (by decide)).1,
   (login_password_independent [alice] "alice@example.com" "pw-one" "pw-two"
      (by decide) (by decide)).2.2⟩

end AminaWorks
